import Mathlib

/-!
Verification of the `TrafficDirectorManager` resource-lifecycle orchestrator
(`src/framework/infrastructure/traffic_director.py`) and its two extensions
(`TrafficDirectorAppNetManager`, `TrafficDirectorSecureManager`).

The orchestrator is modelled as a pure state machine.  Each Python method
becomes a Lean function from the orchestrator state (the tracked resource
slots) to a new state paired with the list of remote gateway calls the method
issues, in order.  Remote create/get calls return a resource handle chosen by
the collaborator; such replies are passed in as explicit parameters.  The one
remote call whose failure the code handles itself (firewall-rule deletion) is
modelled by an oracle `ok : String → Bool` saying whether the remote deletion
of a given rule name succeeds; every other remote failure propagates as a
Python exception and therefore ends the run, so only the success path of the
remaining calls is modelled.  Python `raise` is modelled with `Except`.
-/

/-- A remote resource handle, as returned by the gateways
(`GcpResource`: at least a name and a URL). -/
structure GcpResource where
  name : String
  url : String
deriving DecidableEq, Repr

/-- The `BackendServiceProtocol` enum (the values relevant to the orchestrator). -/
inductive BackendServiceProtocol where
  | GRPC
  | HTTP2
  | UNSET
deriving DecidableEq, Repr

/-- One remote gateway invocation, tagged by gateway and operation, carrying
the resource name it targets (payload details that no claim depends on are
abstracted away). -/
inductive RemoteCall where
  | computeCreateHealthCheck (name : String)
  | computeCreateBackendService (name : String)
  | computeCreateUrlMap (name : String)
  | computeCreateTargetGrpcProxy (name : String)
  | computeCreateTargetHttpProxy (name : String)
  | computeCreateForwardingRule (name : String)
  | computeCreateFirewallRule (name : String)
  | computeDeleteHealthCheck (name : String)
  | computeDeleteBackendService (name : String)
  | computeDeleteUrlMap (name : String)
  | computeDeleteTargetGrpcProxy (name : String)
  | computeDeleteTargetHttpProxy (name : String)
  | computeDeleteForwardingRule (name : String)
  | computeDeleteFirewallRule (name : String)
  | computePatchBackends (serviceName : String)
  | computeWaitForNeg (name : String) (zone : String)
  | computeExistsForwardingRule (port : Nat)
  | netsvcDeleteHttpRoute (name : String)
  | netsvcDeleteGrpcRoute (name : String)
  | netsvcDeleteMesh (name : String)
  | netsvcDeleteEndpointPolicy (name : String)
  | netsecDeleteServerTlsPolicy (name : String)
  | netsecDeleteClientTlsPolicy (name : String)
  | netsecDeleteAuthzPolicy (name : String)
deriving DecidableEq, Repr

/-- Errors raised by the orchestrator (`ValueError`, `TypeError`,
`RuntimeError`, and the implicit `AttributeError` of dereferencing `None`). -/
inductive TDError where
  | valueError (msg : String)
  | typeError (msg : String)
  | runtimeError (msg : String)
  | attributeError (msg : String)
deriving DecidableEq, Repr

/-- The in-memory state of a `TrafficDirectorManager` instance: the settings
fixed at construction and one slot (`Option GcpResource`) per managed
resource kind, exactly the fields assigned in `__init__` and the class
fields. -/
structure TDState where
  resourcePfx : String
  resourceSfx : String
  enable_dualstack : Bool
  health_check : Option GcpResource
  url_map : Option GcpResource
  alternative_url_map : Option GcpResource
  firewall_rule : Option GcpResource
  firewall_rule_ipv6 : Option GcpResource
  target_proxy : Option GcpResource
  target_proxy_ipv6 : Option GcpResource
  target_proxy_is_http : Bool
  alternative_target_proxy : Option GcpResource
  forwarding_rule : Option GcpResource
  forwarding_rule_ipv6 : Option GcpResource
  alternative_forwarding_rule : Option GcpResource
  backend_service : Option GcpResource
  alternative_backend_service : Option GcpResource
  affinity_backend_service : Option GcpResource
  backend_service_protocol : BackendServiceProtocol
  alternative_backend_service_protocol : BackendServiceProtocol
  affinity_backend_service_protocol : BackendServiceProtocol
  backends : Finset GcpResource
  alternative_backends : Finset GcpResource
  affinity_backends : Finset GcpResource
  ensure_firewall : Bool
deriving DecidableEq

/-- Constructor `__init__`: every slot starts `None`, backend sets empty, protocols
`UNSET`, `_ensure_firewall` and `target_proxy_is_http` `False`. -/
def initial_state (pfx sfx : String) (dual : Bool) : TDState where
  resourcePfx := pfx
  resourceSfx := sfx
  enable_dualstack := dual
  health_check := none
  url_map := none
  alternative_url_map := none
  firewall_rule := none
  firewall_rule_ipv6 := none
  target_proxy := none
  target_proxy_ipv6 := none
  target_proxy_is_http := false
  alternative_target_proxy := none
  forwarding_rule := none
  forwarding_rule_ipv6 := none
  alternative_forwarding_rule := none
  backend_service := none
  alternative_backend_service := none
  affinity_backend_service := none
  backend_service_protocol := BackendServiceProtocol.UNSET
  alternative_backend_service_protocol := BackendServiceProtocol.UNSET
  affinity_backend_service_protocol := BackendServiceProtocol.UNSET
  backends := ∅
  alternative_backends := ∅
  affinity_backends := ∅
  ensure_firewall := false

-- Resource-name constants of `TrafficDirectorManager`.

def BACKEND_SERVICE_NAME : String := "backend-service"
def AFFINITY_BACKEND_SERVICE_NAME : String := "backend-service-affinity"
def ALTERNATIVE_BACKEND_SERVICE_NAME : String := "backend-service-alt"
def URL_MAP_NAME : String := "url-map"
def ALTERNATIVE_URL_MAP_NAME : String := "url-map-alt"
def URL_MAP_PATH_MATCHER_NAME : String := "path-matcher"
def TARGET_PROXY_NAME : String := "target-proxy"
def TARGET_PROXY_NAME_IPV6 : String := "target-proxy-ipv6"
def ALTERNATIVE_TARGET_PROXY_NAME : String := "target-proxy-alt"
def FORWARDING_RULE_NAME : String := "forwarding-rule"
def FORWARDING_RULE_NAME_IPV6 : String := "forwarding-rule-ipv6"
def ALTERNATIVE_FORWARDING_RULE_NAME : String := "forwarding-rule-alt"
def HEALTH_CHECK_NAME : String := "health-check"
def FIREWALL_RULE_NAME : String := "allow-health-checks"
def FIREWALL_RULE_NAME_IPV6 : String := "allow-health-checks-ipv6"

/-- Method `make_resource_name`: dash-joins the resource prefix and the base name,
appending the suffix part only when the suffix is non-empty (Python
truthiness of the suffix string).  The `lru_cache` decorator in the source is
a pure memoization with no observable effect. -/
def make_resource_name (s : TDState) (name : String) : String :=
  let parts :=
    if s.resourceSfx = "" then [s.resourcePfx, name]
    else [s.resourcePfx, name, s.resourceSfx]
  String.intercalate "-" parts

/-- Method `create_health_check(protocol, port)`: raises `ValueError` while the slot
is `Present`, otherwise issues the remote create and stores the returned
handle (`reply`).  Protocol and port only shape the remote payload, which is
abstracted in `RemoteCall`. -/
def create_health_check (s : TDState) (reply : GcpResource) :
    Except TDError TDState × List RemoteCall :=
  match s.health_check with
  | some hc =>
      (Except.error (TDError.valueError
        ("Health check " ++ hc.name ++ " already created, delete it first")), [])
  | none =>
      let name := make_resource_name s HEALTH_CHECK_NAME
      (Except.ok { s with health_check := some reply },
       [RemoteCall.computeCreateHealthCheck name])

/-- Method `delete_health_check(force)`: with `force` the name is recomputed from
the naming tuple; otherwise the stored handle name is used, or the call is a
silent no-op when the slot is `Absent`. -/
def delete_health_check (s : TDState) (force : Bool) : TDState × List RemoteCall :=
  if force then
    let name := make_resource_name s HEALTH_CHECK_NAME
    ({ s with health_check := none }, [RemoteCall.computeDeleteHealthCheck name])
  else
    match s.health_check with
    | some hc =>
        ({ s with health_check := none }, [RemoteCall.computeDeleteHealthCheck hc.name])
    | none => (s, [])

/-- Method `create_backend_service(protocol, ...)`: defaults a `None` protocol to
GRPC, issues the remote create unconditionally (no `Present`-slot check in
the source), stores the handle and records the protocol. -/
def create_backend_service (s : TDState) (protocol : Option BackendServiceProtocol)
    (reply : GcpResource) : TDState × List RemoteCall :=
  let protocol := protocol.getD BackendServiceProtocol.GRPC
  let name := make_resource_name s BACKEND_SERVICE_NAME
  ({ s with backend_service := some reply, backend_service_protocol := protocol },
   [RemoteCall.computeCreateBackendService name])

/-- Method `delete_backend_service(force)`. -/
def delete_backend_service (s : TDState) (force : Bool) : TDState × List RemoteCall :=
  if force then
    let name := make_resource_name s BACKEND_SERVICE_NAME
    ({ s with backend_service := none }, [RemoteCall.computeDeleteBackendService name])
  else
    match s.backend_service with
    | some bs =>
        ({ s with backend_service := none },
         [RemoteCall.computeDeleteBackendService bs.name])
    | none => (s, [])

/-- Method `delete_alternative_backend_service(force)`. -/
def delete_alternative_backend_service (s : TDState) (force : Bool) :
    TDState × List RemoteCall :=
  if force then
    let name := make_resource_name s ALTERNATIVE_BACKEND_SERVICE_NAME
    ({ s with alternative_backend_service := none },
     [RemoteCall.computeDeleteBackendService name])
  else
    match s.alternative_backend_service with
    | some bs =>
        ({ s with alternative_backend_service := none },
         [RemoteCall.computeDeleteBackendService bs.name])
    | none => (s, [])

/-- Method `delete_affinity_backend_service(force)`. -/
def delete_affinity_backend_service (s : TDState) (force : Bool) :
    TDState × List RemoteCall :=
  if force then
    let name := make_resource_name s AFFINITY_BACKEND_SERVICE_NAME
    ({ s with affinity_backend_service := none },
     [RemoteCall.computeDeleteBackendService name])
  else
    match s.affinity_backend_service with
    | some bs =>
        ({ s with affinity_backend_service := none },
         [RemoteCall.computeDeleteBackendService bs.name])
    | none => (s, [])

/-- Method `_get_gcp_negs_in_zones(name, zones)`: one blocking
`wait_for_network_endpoint_group` per zone; the collaborator `negOf` gives
the NEG resource each zone resolves to.  Returns the set of NEGs. -/
def get_gcp_negs_in_zones (negOf : String → String → GcpResource) (name : String)
    (zones : List String) : Finset GcpResource × List RemoteCall :=
  (zones.foldl (fun acc zone => insert (negOf name zone) acc) ∅,
   zones.map (fun zone => RemoteCall.computeWaitForNeg name zone))

/-- Method `backend_service_patch_backends(...)`: pushes the full current membership
set to the remote; dereferences `self.backend_service.name`, so it fails when
the backend-service slot is `Absent`. -/
def backend_service_patch_backends (s : TDState) :
    Except TDError TDState × List RemoteCall :=
  match s.backend_service with
  | none => (Except.error (TDError.attributeError "backend_service is None"), [])
  | some bs => (Except.ok s, [RemoteCall.computePatchBackends bs.name])

/-- Method `backend_service_add_neg_backends(name, zones, ...)`: unions the resolved
NEGs into the membership set, raises `ValueError` when the resulting set is
empty, otherwise patches the full set. -/
def backend_service_add_neg_backends (negOf : String → String → GcpResource)
    (s : TDState) (name : String) (zones : List String) :
    Except TDError TDState × List RemoteCall :=
  let loaded := get_gcp_negs_in_zones negOf name zones
  let s := { s with backends := s.backends ∪ loaded.1 }
  if s.backends = ∅ then
    (Except.error (TDError.valueError "Unexpected: no backends were loaded."),
     loaded.2)
  else
    let patched := backend_service_patch_backends s
    (patched.1, loaded.2 ++ patched.2)

/-- Method `create_url_map(src_host, src_port)`: dereferences the default
backend-service slot to build the body, issues the remote create and stores
the handle. -/
def create_url_map (s : TDState) (reply : GcpResource) :
    Except TDError TDState × List RemoteCall :=
  match s.backend_service with
  | none => (Except.error (TDError.attributeError "backend_service is None"), [])
  | some _ =>
      let name := make_resource_name s URL_MAP_NAME
      (Except.ok { s with url_map := some reply },
       [RemoteCall.computeCreateUrlMap name])

/-- Method `delete_url_map(force)`. -/
def delete_url_map (s : TDState) (force : Bool) : TDState × List RemoteCall :=
  if force then
    let name := make_resource_name s URL_MAP_NAME
    ({ s with url_map := none }, [RemoteCall.computeDeleteUrlMap name])
  else
    match s.url_map with
    | some m => ({ s with url_map := none }, [RemoteCall.computeDeleteUrlMap m.name])
    | none => (s, [])

/-- Method `create_alternative_url_map(src_host, src_port, backend_service)`: the
target backend service defaults to the alternative backend-service slot when
not given explicitly; stores the handle in the alternative slot. -/
def create_alternative_url_map (s : TDState) (reply : GcpResource)
    (backendService : Option GcpResource) : Except TDError TDState × List RemoteCall :=
  let backendService :=
    match backendService with
    | some bs => some bs
    | none => s.alternative_backend_service
  match backendService with
  | none =>
      (Except.error (TDError.attributeError "alternative_backend_service is None"), [])
  | some _ =>
      let name := make_resource_name s ALTERNATIVE_URL_MAP_NAME
      (Except.ok { s with alternative_url_map := some reply },
       [RemoteCall.computeCreateUrlMap name])

/-- Method `delete_alternative_url_map(force)`: translated verbatim from the source,
which deletes the remote alternative URL map but then assigns
`self.url_map = None` instead of clearing `self.alternative_url_map`. -/
def delete_alternative_url_map (s : TDState) (force : Bool) :
    TDState × List RemoteCall :=
  if force then
    let name := make_resource_name s ALTERNATIVE_URL_MAP_NAME
    ({ s with url_map := none }, [RemoteCall.computeDeleteUrlMap name])
  else
    match s.alternative_url_map with
    | some m => ({ s with url_map := none }, [RemoteCall.computeDeleteUrlMap m.name])
    | none => (s, [])

/-- Method `create_target_proxy()`: protocol-conditional on the recorded default
backend-service protocol.  GRPC selects the GRPC-proxy gateway and clears the
HTTP-kind flag; HTTP2 selects the HTTP-proxy gateway and sets the flag; any
other value raises `TypeError` before any remote call and before any
mutation.  After the protocol branch the source dereferences
`self.url_map.name` in its logging call, so when the url-map slot is
`Absent` the GRPC and HTTP2 paths raise `AttributeError` with zero remote
calls; the HTTP-kind flag has already been mutated at that point, which is
why this method (alone among the fallible ones, which otherwise raise
before mutating) pairs its error with the post-raise state. -/
def create_target_proxy (s : TDState) (reply : GcpResource) :
    Except (TDError × TDState) TDState × List RemoteCall :=
  let name := make_resource_name s TARGET_PROXY_NAME
  match s.backend_service_protocol with
  | BackendServiceProtocol.GRPC =>
      let s := { s with target_proxy_is_http := false }
      match s.url_map with
      | none => (Except.error (TDError.attributeError "url_map is None", s), [])
      | some _ =>
          (Except.ok { s with target_proxy := some reply },
           [RemoteCall.computeCreateTargetGrpcProxy name])
  | BackendServiceProtocol.HTTP2 =>
      let s := { s with target_proxy_is_http := true }
      match s.url_map with
      | none => (Except.error (TDError.attributeError "url_map is None", s), [])
      | some _ =>
          (Except.ok { s with target_proxy := some reply },
           [RemoteCall.computeCreateTargetHttpProxy name])
  | BackendServiceProtocol.UNSET =>
      (Except.error (TDError.typeError "Unexpected backend service protocol", s), [])

/-- Method `delete_target_grpc_proxy(force)`: clears the proxy slot and the
HTTP-kind flag. -/
def delete_target_grpc_proxy (s : TDState) (force : Bool) : TDState × List RemoteCall :=
  if force then
    let name := make_resource_name s TARGET_PROXY_NAME
    ({ s with target_proxy := none, target_proxy_is_http := false },
     [RemoteCall.computeDeleteTargetGrpcProxy name])
  else
    match s.target_proxy with
    | some tp =>
        ({ s with target_proxy := none, target_proxy_is_http := false },
         [RemoteCall.computeDeleteTargetGrpcProxy tp.name])
    | none => (s, [])

/-- Method `delete_target_http_proxy(force)`: without `force` it only fires when the
proxy slot is `Present` and marked HTTP-kind. -/
def delete_target_http_proxy (s : TDState) (force : Bool) : TDState × List RemoteCall :=
  if force then
    let name := make_resource_name s TARGET_PROXY_NAME
    ({ s with target_proxy := none, target_proxy_is_http := false },
     [RemoteCall.computeDeleteTargetHttpProxy name])
  else
    match s.target_proxy with
    | some tp =>
        if s.target_proxy_is_http then
          ({ s with target_proxy := none, target_proxy_is_http := false },
           [RemoteCall.computeDeleteTargetHttpProxy tp.name])
        else (s, [])
    | none => (s, [])

/-- Method `delete_target_proxy_ipv6(force)`: the IPv6 variant only supports the
HTTP kind. -/
def delete_target_proxy_ipv6 (s : TDState) (force : Bool) : TDState × List RemoteCall :=
  if force then
    let name := make_resource_name s TARGET_PROXY_NAME_IPV6
    ({ s with target_proxy_ipv6 := none },
     [RemoteCall.computeDeleteTargetHttpProxy name])
  else
    match s.target_proxy_ipv6 with
    | some tp =>
        ({ s with target_proxy_ipv6 := none },
         [RemoteCall.computeDeleteTargetHttpProxy tp.name])
    | none => (s, [])

/-- Method `delete_alternative_target_grpc_proxy(force)`. -/
def delete_alternative_target_grpc_proxy (s : TDState) (force : Bool) :
    TDState × List RemoteCall :=
  if force then
    let name := make_resource_name s ALTERNATIVE_TARGET_PROXY_NAME
    ({ s with alternative_target_proxy := none },
     [RemoteCall.computeDeleteTargetGrpcProxy name])
  else
    match s.alternative_target_proxy with
    | some tp =>
        ({ s with alternative_target_proxy := none },
         [RemoteCall.computeDeleteTargetGrpcProxy tp.name])
    | none => (s, [])

/-- Method `delete_forwarding_rule(force)`. -/
def delete_forwarding_rule (s : TDState) (force : Bool) : TDState × List RemoteCall :=
  if force then
    let name := make_resource_name s FORWARDING_RULE_NAME
    ({ s with forwarding_rule := none }, [RemoteCall.computeDeleteForwardingRule name])
  else
    match s.forwarding_rule with
    | some fr =>
        ({ s with forwarding_rule := none },
         [RemoteCall.computeDeleteForwardingRule fr.name])
    | none => (s, [])

/-- Method `delete_forwarding_rule_ipv6(force)`. -/
def delete_forwarding_rule_ipv6 (s : TDState) (force : Bool) :
    TDState × List RemoteCall :=
  if force then
    let name := make_resource_name s FORWARDING_RULE_NAME_IPV6
    ({ s with forwarding_rule_ipv6 := none },
     [RemoteCall.computeDeleteForwardingRule name])
  else
    match s.forwarding_rule_ipv6 with
    | some fr =>
        ({ s with forwarding_rule_ipv6 := none },
         [RemoteCall.computeDeleteForwardingRule fr.name])
    | none => (s, [])

/-- Method `delete_alternative_forwarding_rule(force)`. -/
def delete_alternative_forwarding_rule (s : TDState) (force : Bool) :
    TDState × List RemoteCall :=
  if force then
    let name := make_resource_name s ALTERNATIVE_FORWARDING_RULE_NAME
    ({ s with alternative_forwarding_rule := none },
     [RemoteCall.computeDeleteForwardingRule name])
  else
    match s.alternative_forwarding_rule with
    | some fr =>
        ({ s with alternative_forwarding_rule := none },
         [RemoteCall.computeDeleteForwardingRule fr.name])
    | none => (s, [])

/-- Method `_delete_firewall_rule(name)`: attempts the remote deletion; a remote
failure is caught and downgraded to a warning, reported by the `Bool`
result.  The oracle `ok` models whether the remote call succeeds. -/
def delete_firewall_rule_attempt (ok : String → Bool) (name : String) :
    Bool × List RemoteCall :=
  (ok name, [RemoteCall.computeDeleteFirewallRule name])

/-- Method `delete_firewall_rule(force)`: note the source checks the slot BEFORE
`force`; the slot is cleared only when the remote deletion succeeded. -/
def delete_firewall_rule (ok : String → Bool) (s : TDState) (force : Bool) :
    TDState × List RemoteCall :=
  match s.firewall_rule with
  | some fw =>
      let att := delete_firewall_rule_attempt ok fw.name
      (if att.1 then { s with firewall_rule := none } else s, att.2)
  | none =>
      if force then
        let att := delete_firewall_rule_attempt ok (make_resource_name s FIREWALL_RULE_NAME)
        (if att.1 then { s with firewall_rule := none } else s, att.2)
      else (s, [])

/-- Method `delete_firewall_rule_ipv6(force)`. -/
def delete_firewall_rule_ipv6 (ok : String → Bool) (s : TDState) (force : Bool) :
    TDState × List RemoteCall :=
  match s.firewall_rule_ipv6 with
  | some fw =>
      let att := delete_firewall_rule_attempt ok fw.name
      (if att.1 then { s with firewall_rule_ipv6 := none } else s, att.2)
  | none =>
      if force then
        let att :=
          delete_firewall_rule_attempt ok (make_resource_name s FIREWALL_RULE_NAME_IPV6)
        (if att.1 then { s with firewall_rule_ipv6 := none } else s, att.2)
      else (s, [])

/-- Method `delete_firewall_rules(force)`: gated on the `_ensure_firewall` flag,
which it unconditionally resets afterwards. -/
def delete_firewall_rules (ok : String → Bool) (s : TDState) (force : Bool) :
    TDState × List RemoteCall :=
  if s.ensure_firewall then
    let r1 := delete_firewall_rule ok s force
    let r2 := delete_firewall_rule_ipv6 ok r1.1 force
    ({ r2.1 with ensure_firewall := false }, r1.2 ++ r2.2)
  else (s, [])

/-- The dual-stack block inside `cleanup`: IPv6 forwarding rule, then IPv6
target proxy, only when dual stack is enabled. -/
def cleanup_dualstack_step (s : TDState) (force : Bool) : TDState × List RemoteCall :=
  if s.enable_dualstack then
    let ra := delete_forwarding_rule_ipv6 s force
    let rb := delete_target_proxy_ipv6 ra.1 force
    (rb.1, ra.2 ++ rb.2)
  else (s, [])

/-- Method `TrafficDirectorManager.cleanup(force)`: the deletions in source order. -/
def cleanup (ok : String → Bool) (s : TDState) (force : Bool) :
    TDState × List RemoteCall :=
  let r1 := delete_firewall_rules ok s force
  let r2 := delete_forwarding_rule r1.1 force
  let r3 := delete_alternative_forwarding_rule r2.1 force
  let r4 := delete_target_http_proxy r3.1 force
  let r5 := delete_target_grpc_proxy r4.1 force
  let r6 := cleanup_dualstack_step r5.1 force
  let r7 := delete_alternative_target_grpc_proxy r6.1 force
  let r8 := delete_url_map r7.1 force
  let r9 := delete_alternative_url_map r8.1 force
  let r10 := delete_backend_service r9.1 force
  let r11 := delete_alternative_backend_service r10.1 force
  let r12 := delete_affinity_backend_service r11.1 force
  let r13 := delete_health_check r12.1 force
  (r13.1,
   r1.2 ++ r2.2 ++ r3.2 ++ r4.2 ++ r5.2 ++ r6.2 ++ r7.2 ++ r8.2 ++ r9.2 ++
     r10.2 ++ r11.2 ++ r12.2 ++ r13.2)

/-- Loop body of `find_unused_forwarding_rule_port`: `sample i` models the
value of the i-th `random.randint(lo, hi)` draw, `inUse` the remote
`exists_forwarding_rule` check; the fuel counts remaining attempts. -/
def find_port_go (inUse : Nat → Bool) (sample : Nat → Nat) :
    Nat → Nat → Except TDError Nat × List RemoteCall
  | 0, _ =>
      (Except.error (TDError.runtimeError "Couldn\x27t find unused forwarding rule port"),
       [])
  | Nat.succ k, i =>
      let src_port := sample i
      if inUse src_port then
        let rest := find_port_go inUse sample k (i + 1)
        (rest.1, RemoteCall.computeExistsForwardingRule src_port :: rest.2)
      else
        (Except.ok src_port, [RemoteCall.computeExistsForwardingRule src_port])

/-- Method `find_unused_forwarding_rule_port(lo, hi, attempts)`: samples at most
`attempts` random ports, returns the first one the collaborator reports
unused, raises `RuntimeError` when the budget is exhausted. -/
def find_unused_forwarding_rule_port (inUse : Nat → Bool) (sample : Nat → Nat)
    (attempts : Nat) : Except TDError Nat × List RemoteCall :=
  find_port_go inUse sample attempts 0

-- `TrafficDirectorAppNetManager` (mesh/route extension).

def GRPC_ROUTE_NAME : String := "grpc-route"
def HTTP_ROUTE_NAME : String := "http-route"
def MESH_NAME : String := "mesh"

/-- State of a `TrafficDirectorAppNetManager`: the base state plus the
mesh and route slots added by its `__init__`. -/
structure AppNetState extends TDState where
  grpc_route : Option GcpResource
  http_route : Option GcpResource
  mesh : Option GcpResource
deriving DecidableEq

/-- Method `TrafficDirectorAppNetManager.delete_http_route(force)`. -/
def appnet_delete_http_route (s : AppNetState) (force : Bool) :
    AppNetState × List RemoteCall :=
  if force then
    let name := make_resource_name s.toTDState HTTP_ROUTE_NAME
    ({ s with http_route := none }, [RemoteCall.netsvcDeleteHttpRoute name])
  else
    match s.http_route with
    | some r => ({ s with http_route := none }, [RemoteCall.netsvcDeleteHttpRoute r.name])
    | none => (s, [])

/-- Method `TrafficDirectorAppNetManager.delete_grpc_route(force)`. -/
def appnet_delete_grpc_route (s : AppNetState) (force : Bool) :
    AppNetState × List RemoteCall :=
  if force then
    let name := make_resource_name s.toTDState GRPC_ROUTE_NAME
    ({ s with grpc_route := none }, [RemoteCall.netsvcDeleteGrpcRoute name])
  else
    match s.grpc_route with
    | some r => ({ s with grpc_route := none }, [RemoteCall.netsvcDeleteGrpcRoute r.name])
    | none => (s, [])

/-- Method `TrafficDirectorAppNetManager.delete_mesh(force)`. -/
def appnet_delete_mesh (s : AppNetState) (force : Bool) :
    AppNetState × List RemoteCall :=
  if force then
    let name := make_resource_name s.toTDState MESH_NAME
    ({ s with mesh := none }, [RemoteCall.netsvcDeleteMesh name])
  else
    match s.mesh with
    | some r => ({ s with mesh := none }, [RemoteCall.netsvcDeleteMesh r.name])
    | none => (s, [])

/-- Method `TrafficDirectorAppNetManager.cleanup(force)`: http route, grpc route,
mesh, then `super().cleanup(force)`. -/
def appnet_cleanup (ok : String → Bool) (s : AppNetState) (force : Bool) :
    AppNetState × List RemoteCall :=
  let r1 := appnet_delete_http_route s force
  let r2 := appnet_delete_grpc_route r1.1 force
  let r3 := appnet_delete_mesh r2.1 force
  let rb := cleanup ok r3.1.toTDState force
  ({ r3.1 with toTDState := rb.1 }, r1.2 ++ r2.2 ++ r3.2 ++ rb.2)

-- `TrafficDirectorSecureManager` (security extension).

def SERVER_TLS_POLICY_NAME : String := "server-tls-policy"
def CLIENT_TLS_POLICY_NAME : String := "client-tls-policy"
def AUTHZ_POLICY_NAME : String := "authz-policy"
def ENDPOINT_POLICY : String := "endpoint-policy"

/-- State of a `TrafficDirectorSecureManager`: the base state plus the four
policy slots added by its `__init__`. -/
structure SecureState extends TDState where
  server_tls_policy : Option GcpResource
  client_tls_policy : Option GcpResource
  authz_policy : Option GcpResource
  endpoint_policy : Option GcpResource
deriving DecidableEq

/-- Method `TrafficDirectorSecureManager.delete_endpoint_policy(force)`. -/
def secure_delete_endpoint_policy (s : SecureState) (force : Bool) :
    SecureState × List RemoteCall :=
  if force then
    let name := make_resource_name s.toTDState ENDPOINT_POLICY
    ({ s with endpoint_policy := none }, [RemoteCall.netsvcDeleteEndpointPolicy name])
  else
    match s.endpoint_policy with
    | some r =>
        ({ s with endpoint_policy := none },
         [RemoteCall.netsvcDeleteEndpointPolicy r.name])
    | none => (s, [])

/-- Method `TrafficDirectorSecureManager.delete_server_tls_policy(force)`. -/
def secure_delete_server_tls_policy (s : SecureState) (force : Bool) :
    SecureState × List RemoteCall :=
  if force then
    let name := make_resource_name s.toTDState SERVER_TLS_POLICY_NAME
    ({ s with server_tls_policy := none },
     [RemoteCall.netsecDeleteServerTlsPolicy name])
  else
    match s.server_tls_policy with
    | some r =>
        ({ s with server_tls_policy := none },
         [RemoteCall.netsecDeleteServerTlsPolicy r.name])
    | none => (s, [])

/-- Method `TrafficDirectorSecureManager.delete_client_tls_policy(force)`. -/
def secure_delete_client_tls_policy (s : SecureState) (force : Bool) :
    SecureState × List RemoteCall :=
  if force then
    let name := make_resource_name s.toTDState CLIENT_TLS_POLICY_NAME
    ({ s with client_tls_policy := none },
     [RemoteCall.netsecDeleteClientTlsPolicy name])
  else
    match s.client_tls_policy with
    | some r =>
        ({ s with client_tls_policy := none },
         [RemoteCall.netsecDeleteClientTlsPolicy r.name])
    | none => (s, [])

/-- Method `TrafficDirectorSecureManager.delete_authz_policy(force)`. -/
def secure_delete_authz_policy (s : SecureState) (force : Bool) :
    SecureState × List RemoteCall :=
  if force then
    let name := make_resource_name s.toTDState AUTHZ_POLICY_NAME
    ({ s with authz_policy := none }, [RemoteCall.netsecDeleteAuthzPolicy name])
  else
    match s.authz_policy with
    | some r =>
        ({ s with authz_policy := none }, [RemoteCall.netsecDeleteAuthzPolicy r.name])
    | none => (s, [])

/-- Method `TrafficDirectorSecureManager.cleanup(force)`: `super().cleanup(force)`
runs FIRST, then endpoint policy, server TLS policy, client TLS policy,
authorization policy are deleted. -/
def secure_cleanup (ok : String → Bool) (s : SecureState) (force : Bool) :
    SecureState × List RemoteCall :=
  let rb := cleanup ok s.toTDState force
  let s0 : SecureState := { s with toTDState := rb.1 }
  let r1 := secure_delete_endpoint_policy s0 force
  let r2 := secure_delete_server_tls_policy r1.1 force
  let r3 := secure_delete_client_tls_policy r2.1 force
  let r4 := secure_delete_authz_policy r3.1 force
  (r4.1, rb.2 ++ r1.2 ++ r2.2 ++ r3.2 ++ r4.2)

-- Classification of remote calls by gateway, used to state teardown-ordering
-- properties.

/-- A call to the compute gateway (the only gateway the base orchestrator
uses). -/
def RemoteCall.isComputeCall : RemoteCall → Bool
  | RemoteCall.computeCreateHealthCheck _ => true
  | RemoteCall.computeCreateBackendService _ => true
  | RemoteCall.computeCreateUrlMap _ => true
  | RemoteCall.computeCreateTargetGrpcProxy _ => true
  | RemoteCall.computeCreateTargetHttpProxy _ => true
  | RemoteCall.computeCreateForwardingRule _ => true
  | RemoteCall.computeCreateFirewallRule _ => true
  | RemoteCall.computeDeleteHealthCheck _ => true
  | RemoteCall.computeDeleteBackendService _ => true
  | RemoteCall.computeDeleteUrlMap _ => true
  | RemoteCall.computeDeleteTargetGrpcProxy _ => true
  | RemoteCall.computeDeleteTargetHttpProxy _ => true
  | RemoteCall.computeDeleteForwardingRule _ => true
  | RemoteCall.computeDeleteFirewallRule _ => true
  | RemoteCall.computePatchBackends _ => true
  | RemoteCall.computeWaitForNeg _ _ => true
  | RemoteCall.computeExistsForwardingRule _ => true
  | _ => false

/-- A deletion of one of the mesh extension resources (routes or mesh). -/
def RemoteCall.isMeshRouteDeleteCall : RemoteCall → Bool
  | RemoteCall.netsvcDeleteHttpRoute _ => true
  | RemoteCall.netsvcDeleteGrpcRoute _ => true
  | RemoteCall.netsvcDeleteMesh _ => true
  | _ => false

/-- A deletion of one of the security extension resources (TLS,
authorization or endpoint policies). -/
def RemoteCall.isPolicyDeleteCall : RemoteCall → Bool
  | RemoteCall.netsvcDeleteEndpointPolicy _ => true
  | RemoteCall.netsecDeleteServerTlsPolicy _ => true
  | RemoteCall.netsecDeleteClientTlsPolicy _ => true
  | RemoteCall.netsecDeleteAuthzPolicy _ => true
  | _ => false

/-- A firewall-rule deletion. -/
def RemoteCall.isFirewallDeleteCall : RemoteCall → Bool
  | RemoteCall.computeDeleteFirewallRule _ => true
  | _ => false

-- A decomposition of the base `cleanup` into the part before the
-- target-proxy deletions, the two target-proxy deletions, and the rest, used
-- to isolate which remote deletions `cleanup` issues for the proxy slot.

/-- The `cleanup` steps before the target-proxy deletions: firewall rules,
forwarding rule, alternative forwarding rule. -/
def cleanup_pre_proxy (ok : String → Bool) (s : TDState) (force : Bool) :
    TDState × List RemoteCall :=
  let r1 := delete_firewall_rules ok s force
  let r2 := delete_forwarding_rule r1.1 force
  let r3 := delete_alternative_forwarding_rule r2.1 force
  (r3.1, r1.2 ++ r2.2 ++ r3.2)

/-- The two consecutive target-proxy deletions of `cleanup`: HTTP kind then
GRPC kind. -/
def cleanup_proxy_step (s : TDState) (force : Bool) : TDState × List RemoteCall :=
  let r4 := delete_target_http_proxy s force
  let r5 := delete_target_grpc_proxy r4.1 force
  (r5.1, r4.2 ++ r5.2)

/-- The `cleanup` steps after the target-proxy deletions: dual-stack block,
alternative proxy, URL maps, backend services, health check. -/
def cleanup_post_proxy (s : TDState) (force : Bool) : TDState × List RemoteCall :=
  let r6 := cleanup_dualstack_step s force
  let r7 := delete_alternative_target_grpc_proxy r6.1 force
  let r8 := delete_url_map r7.1 force
  let r9 := delete_alternative_url_map r8.1 force
  let r10 := delete_backend_service r9.1 force
  let r11 := delete_alternative_backend_service r10.1 force
  let r12 := delete_affinity_backend_service r11.1 force
  let r13 := delete_health_check r12.1 force
  (r13.1,
   r6.2 ++ r7.2 ++ r8.2 ++ r9.2 ++ r10.2 ++ r11.2 ++ r12.2 ++ r13.2)

/-- The remote deletions `cleanup` issues for the (non-IPv6, non-alternative)
target-proxy slot: the calls of its two consecutive proxy-deletion steps,
taken at the state those steps actually see. -/
def cleanup_proxy_calls (ok : String → Bool) (s : TDState) (force : Bool) :
    List RemoteCall :=
  (cleanup_proxy_step (cleanup_pre_proxy ok s force).1 force).2

-- Concrete instances used by counterexamples and witnesses.

/-- A secure manager that created a health check (base resource) and an
endpoint policy (extension resource) and nothing else. -/
def c1SecureState : SecureState where
  toTDState :=
    { initial_state "p" "s" false with
        health_check := some ⟨"p-health-check-s", "hc-url"⟩ }
  server_tls_policy := none
  client_tls_policy := none
  authz_policy := none
  endpoint_policy := some ⟨"p-endpoint-policy-s", "ep-url"⟩

/-- An orchestrator holding an alternative backend service, ready for
`create_alternative_url_map`. -/
def c2State0 : TDState :=
  { initial_state "p" "s" false with
      alternative_backend_service := some ⟨"p-backend-service-alt-s", "bs-url"⟩ }

/-- The handle the gateway returns for the alternative URL map. -/
def c2Reply : GcpResource := ⟨"p-url-map-alt-s", "um-url"⟩

/-- State `c2State0` right after `create_alternative_url_map` stored `c2Reply`. -/
def c2State1 : TDState := { c2State0 with alternative_url_map := some c2Reply }

/-- An orchestrator that created an IPv4 firewall rule (so the
ensure-firewall flag is set) and nothing else. -/
def c3State : TDState :=
  { initial_state "p" "s" false with
      firewall_rule := some ⟨"p-allow-health-checks-s", "fw-url"⟩,
      ensure_firewall := true }

/-- An orchestrator whose default backend-service slot is already
`Present`. -/
def c5State : TDState :=
  { initial_state "p" "s" false with
      backend_service := some ⟨"p-backend-service-s", "bs-url"⟩ }

/-- An orchestrator with a non-empty backend membership set and a `Present`
backend-service slot. -/
def c7State : TDState :=
  { initial_state "p" "s" false with
      backend_service := some ⟨"p-backend-service-s", "bs-url"⟩,
      backends := {⟨"neg-a", "neg-url"⟩} }

/-- A collaborator resolving every zone to the same NEG (never consulted on
an empty zone list). -/
def c7NegOf : String → String → GcpResource := fun name zone =>
  ⟨name ++ "-" ++ zone, "neg-url"⟩

/-- The fields of the state that determine the target-proxy deletions of
`cleanup`: the proxy slot, the HTTP-kind flag, and the naming tuple. -/
def proxyView (s : TDState) : Option GcpResource × Bool × String × String :=
  (s.target_proxy, s.target_proxy_is_http, s.resourcePfx, s.resourceSfx)

/-- The remote calls `TrafficDirectorAppNetManager.cleanup` issues before
delegating to the base cleanup: http route, grpc route, mesh deletions. -/
def appnet_ext_calls (s : AppNetState) (force : Bool) : List RemoteCall :=
  let r1 := appnet_delete_http_route s force
  let r2 := appnet_delete_grpc_route r1.1 force
  let r3 := appnet_delete_mesh r2.1 force
  r1.2 ++ r2.2 ++ r3.2

/-- The remote calls `TrafficDirectorSecureManager.cleanup` issues after the
base cleanup: endpoint policy, server TLS, client TLS, authorization policy
deletions. -/
def secure_policy_calls (ok : String → Bool) (s : SecureState) (force : Bool) :
    List RemoteCall :=
  let rb := cleanup ok s.toTDState force
  let s0 : SecureState := { s with toTDState := rb.1 }
  let r1 := secure_delete_endpoint_policy s0 force
  let r2 := secure_delete_server_tls_policy r1.1 force
  let r3 := secure_delete_client_tls_policy r2.1 force
  let r4 := secure_delete_authz_policy r3.1 force
  r1.2 ++ r2.2 ++ r3.2 ++ r4.2

-- Theorems.

/-- C9: resource-name derivation is a pure function of
(prefix, base name, suffix): it dash-joins prefix and base name, appends the
suffix segment only when the suffix is non-empty (so an empty suffix never
produces a trailing separator), and depends on no other orchestrator state,
so identical inputs always yield the identical string. -/
theorem C9_make_resource_name (s t : TDState) (name : String) :
    (make_resource_name s name =
      (if s.resourceSfx = "" then s.resourcePfx ++ "-" ++ name
       else s.resourcePfx ++ "-" ++ name ++ "-" ++ s.resourceSfx)) ∧
    (make_resource_name
        { t with resourcePfx := s.resourcePfx, resourceSfx := s.resourceSfx } name =
      make_resource_name s name) := by
  constructor
  · unfold make_resource_name
    split <;> rfl
  · rfl

/-- C6: `create_target_proxy()` selects the proxy kind from the recorded
backend-service protocol.  With the url-map dependency `Present`, GRPC
creates via the GRPC-proxy gateway and leaves the HTTP-kind flag cleared,
and HTTP2 creates via the HTTP-proxy gateway and sets the flag; any other
value (UNSET) raises the configuration (`TypeError`) error with zero remote
calls, no resource created and no mutation, whatever the url-map slot
holds.  With the url-map slot `Absent`, the GRPC and HTTP2 paths raise the
dereference (`AttributeError`) error, still with zero remote calls and no
resource created, the HTTP-kind flag already mutated. -/
theorem C6_create_target_proxy_protocol (s : TDState) (m reply : GcpResource) :
    (create_target_proxy
        { s with backend_service_protocol := BackendServiceProtocol.GRPC,
                 url_map := some m } reply =
      (Except.ok
        { s with backend_service_protocol := BackendServiceProtocol.GRPC,
                 url_map := some m,
                 target_proxy := some reply, target_proxy_is_http := false },
       [RemoteCall.computeCreateTargetGrpcProxy (make_resource_name s TARGET_PROXY_NAME)])) ∧
    (create_target_proxy
        { s with backend_service_protocol := BackendServiceProtocol.HTTP2,
                 url_map := some m } reply =
      (Except.ok
        { s with backend_service_protocol := BackendServiceProtocol.HTTP2,
                 url_map := some m,
                 target_proxy := some reply, target_proxy_is_http := true },
       [RemoteCall.computeCreateTargetHttpProxy (make_resource_name s TARGET_PROXY_NAME)])) ∧
    (create_target_proxy
        { s with backend_service_protocol := BackendServiceProtocol.UNSET } reply =
      (Except.error
        (TDError.typeError "Unexpected backend service protocol",
         { s with backend_service_protocol := BackendServiceProtocol.UNSET }), [])) ∧
    (create_target_proxy
        { s with backend_service_protocol := BackendServiceProtocol.GRPC,
                 url_map := none } reply =
      (Except.error
        (TDError.attributeError "url_map is None",
         { s with backend_service_protocol := BackendServiceProtocol.GRPC,
                  url_map := none, target_proxy_is_http := false }), [])) ∧
    (create_target_proxy
        { s with backend_service_protocol := BackendServiceProtocol.HTTP2,
                 url_map := none } reply =
      (Except.error
        (TDError.attributeError "url_map is None",
         { s with backend_service_protocol := BackendServiceProtocol.HTTP2,
                  url_map := none, target_proxy_is_http := true }), [])) :=
  ⟨rfl, rfl, rfl, rfl, rfl⟩

/-- C5 (amended): only `create_health_check` enforces the `Present`-slot
precondition, raising `ValueError` with zero remote calls;
`create_backend_service` invoked while its slot is `Present` performs the
remote create anyway and silently overwrites the slot. -/
theorem C5_create_preconditions (s : TDState) (hc reply : GcpResource)
    (p : Option BackendServiceProtocol) :
    (create_health_check { s with health_check := some hc } reply =
      (Except.error (TDError.valueError
        ("Health check " ++ hc.name ++ " already created, delete it first")), [])) ∧
    (create_backend_service { s with backend_service := some hc } p reply =
      ({ s with backend_service := some reply,
                backend_service_protocol := p.getD BackendServiceProtocol.GRPC },
       [RemoteCall.computeCreateBackendService (make_resource_name s BACKEND_SERVICE_NAME)])) :=
  ⟨rfl, rfl⟩

/-- C5 counterexample: with the default backend-service slot already
`Present`, `create_backend_service` raises no precondition error: it issues
a remote create call and overwrites the slot. -/
theorem C5_counterexample :
    (create_backend_service c5State (some BackendServiceProtocol.GRPC)
        ⟨"p-backend-service-s", "new-url"⟩).2 =
      [RemoteCall.computeCreateBackendService "p-backend-service-s"] ∧
    (create_backend_service c5State (some BackendServiceProtocol.GRPC)
        ⟨"p-backend-service-s", "new-url"⟩).1.backend_service =
      some ⟨"p-backend-service-s", "new-url"⟩ := by
  constructor <;> rfl

/-- C2 at the failing resource kind: after `create_alternative_url_map`
followed by `delete_alternative_url_map` (without force), the alternative
URL-map slot is still `Present` (the source clears `url_map` instead), and a
second `delete_alternative_url_map` issues another remote deletion instead
of being a no-op. -/
theorem C2_alternative_url_map_eval :
    (create_alternative_url_map c2State0 c2Reply none).1 = Except.ok c2State1 ∧
    (create_alternative_url_map c2State0 c2Reply none).2 =
      [RemoteCall.computeCreateUrlMap "p-url-map-alt-s"] ∧
    (delete_alternative_url_map c2State1 false).1.alternative_url_map = some c2Reply ∧
    (delete_alternative_url_map c2State1 false).2 =
      [RemoteCall.computeDeleteUrlMap "p-url-map-alt-s"] ∧
    (delete_alternative_url_map (delete_alternative_url_map c2State1 false).1 false).2 =
      [RemoteCall.computeDeleteUrlMap "p-url-map-alt-s"] :=
  ⟨rfl, rfl, rfl, rfl, rfl⟩

/-- When every remaining sample is reported in use, the port-search loop
spends its whole fuel, one remote check per attempt, and fails. -/
theorem find_port_go_exhausted (inUse : Nat → Bool) (sample : Nat → Nat) :
    ∀ k i, (∀ m, m < k → inUse (sample (i + m)) = true) →
      (find_port_go inUse sample k i).1 =
          Except.error
            (TDError.runtimeError "Couldn\x27t find unused forwarding rule port") ∧
      (find_port_go inUse sample k i).2.length = k := by
  intro k
  induction k with
  | zero => intro i _; exact ⟨rfl, rfl⟩
  | succ k ih =>
      intro i h
      have h0 : inUse (sample i) = true := by
        have := h 0 (Nat.succ_pos k); simpa using this
      have hrec := ih (i + 1) (fun m hm => by
        have := h (m + 1) (Nat.succ_lt_succ hm)
        have e : i + (m + 1) = i + 1 + m := by omega
        rwa [e] at this)
      refine ⟨?_, ?_⟩
      · simp [find_port_go, h0, hrec.1]
      · simp [find_port_go, h0, hrec.2]

/-- When the first unused sample occurs at relative index `j` within the
fuel, the port-search loop returns it after exactly `j + 1` remote checks. -/
theorem find_port_go_first_unused (inUse : Nat → Bool) (sample : Nat → Nat) :
    ∀ j k i, j < k → (∀ m, m < j → inUse (sample (i + m)) = true) →
      inUse (sample (i + j)) = false →
      (find_port_go inUse sample k i).1 = Except.ok (sample (i + j)) ∧
      (find_port_go inUse sample k i).2.length = j + 1 := by
  intro j
  induction j with
  | zero =>
      intro k i hk _ hfalse
      obtain ⟨k, rfl⟩ : ∃ m, k = m + 1 := ⟨k - 1, by omega⟩
      have h0 : inUse (sample i) = false := by simpa using hfalse
      exact ⟨by simp [find_port_go, h0], by simp [find_port_go, h0]⟩
  | succ j ih =>
      intro k i hk hused hfalse
      obtain ⟨k, rfl⟩ : ∃ m, k = m + 1 := ⟨k - 1, by omega⟩
      have h0 : inUse (sample i) = true := by
        have := hused 0 (Nat.succ_pos j); simpa using this
      have hrec := ih k (i + 1) (by omega)
        (fun m hm => by
          have := hused (m + 1) (Nat.succ_lt_succ hm)
          have e : i + (m + 1) = i + 1 + m := by omega
          rwa [e] at this)
        (by
          have e : i + (j + 1) = i + 1 + j := by omega
          rwa [e] at hfalse)
      have e2 : i + (j + 1) = i + 1 + j := by omega
      refine ⟨?_, ?_⟩
      · rw [e2]; simp [find_port_go, h0, hrec.1]
      · simp [find_port_go, h0, hrec.2]

/-- C8: with the attempt budget 25 and `sample` modelling
`random.randint(1024, 65535)` (hence every draw lies in [1024, 65535]),
`find_unused_forwarding_rule_port` raises the exhaustion (`RuntimeError`)
error after exactly 25 unsuccessful remote checks when every sampled port is
reported in use; otherwise it returns the first sampled port reported
unused, which lies within [1024, 65535]. -/
theorem C8_find_port (inUse : Nat → Bool) (sample : Nat → Nat)
    (hrange : ∀ i, 1024 ≤ sample i ∧ sample i ≤ 65535) :
    ((∀ m, m < 25 → inUse (sample m) = true) →
      (find_unused_forwarding_rule_port inUse sample 25).1 =
          Except.error
            (TDError.runtimeError "Couldn\x27t find unused forwarding rule port") ∧
      (find_unused_forwarding_rule_port inUse sample 25).2.length = 25) ∧
    (∀ j, j < 25 → (∀ m, m < j → inUse (sample m) = true) →
      inUse (sample j) = false →
      (find_unused_forwarding_rule_port inUse sample 25).1 = Except.ok (sample j) ∧
      1024 ≤ sample j ∧ sample j ≤ 65535 ∧
      (find_unused_forwarding_rule_port inUse sample 25).2.length = j + 1) := by
  constructor
  · intro h
    have := find_port_go_exhausted inUse sample 25 0 (fun m hm => by simpa using h m hm)
    exact this
  · intro j hj hused hfalse
    have := find_port_go_first_unused inUse sample j 25 0 hj
      (fun m hm => by simpa using hused m hm) (by simpa using hfalse)
    exact ⟨by simpa using this.1, (hrange j).1, (hrange j).2, this.2⟩

/-- C8 witness: with every port reported in use the search at the default
budget fails, and with port 2000 reported unused the search returns 2000. -/
theorem C8_find_port_witness :
    (find_unused_forwarding_rule_port (fun _ => true) (fun _ => 2000) 25).1 =
        Except.error
          (TDError.runtimeError "Couldn\x27t find unused forwarding rule port") ∧
    (find_unused_forwarding_rule_port (fun p => decide (p ≠ 2000)) (fun _ => 2000) 25).1 =
        Except.ok 2000 := by
  constructor
  · exact ((C8_find_port (fun _ => true) (fun _ => 2000)
      (fun _ => ⟨by norm_num, by norm_num⟩)).1 (fun m _ => rfl)).1
  · have := ((C8_find_port (fun p => decide (p ≠ 2000)) (fun _ => 2000)
      (fun _ => ⟨by norm_num, by norm_num⟩)).2 0 (by norm_num)
      (fun m hm => absurd hm (Nat.not_lt_zero m)) (by simp)).1
    simpa using this

/-- C7 (amended): when the membership set is empty beforehand (in
particular on a fresh orchestrator), `backend_service_add_neg_backends`
with an empty zone list raises the empty-result (`ValueError`) error and
performs no remote call, in particular no backend patch. -/
theorem C7_add_backends_empty (negOf : String → String → GcpResource)
    (s : TDState) (name : String) (h : s.backends = ∅) :
    backend_service_add_neg_backends negOf s name [] =
      (Except.error (TDError.valueError "Unexpected: no backends were loaded."), []) := by
  simp [backend_service_add_neg_backends, get_gcp_negs_in_zones, h]

/-- C7 witness: the empty-membership case at a concrete fresh
orchestrator. -/
theorem C7_add_backends_empty_witness :
    backend_service_add_neg_backends c7NegOf (initial_state "p" "s" false) "n" [] =
      (Except.error (TDError.valueError "Unexpected: no backends were loaded."), []) :=
  C7_add_backends_empty c7NegOf (initial_state "p" "s" false) "n" rfl

/-- C7 counterexample: on an orchestrator whose membership set is already
non-empty, `backend_service_add_neg_backends` with an empty zone list does
NOT raise the empty-result error — it succeeds and issues a backend patch
call, refuting the claim for that orchestrator state. -/
theorem C7_counterexample :
    (backend_service_add_neg_backends c7NegOf c7State "n" []).1.isOk = true ∧
    (backend_service_add_neg_backends c7NegOf c7State "n" []).2 =
      [RemoteCall.computePatchBackends "p-backend-service-s"] := by
  constructor <;> rfl

/-- C3 (amended): when the remote firewall-rule deletion fails during
cleanup, the failure is downgraded to a logged warning and the local
firewall slot is NOT cleared; however `delete_firewall_rules`
unconditionally resets the ensure-firewall flag, so a subsequent
`delete_firewall_rules` (hence a subsequent `cleanup()`) issues no remote
call at all; only a direct `delete_firewall_rule()` call retries the same
deletion. -/
theorem C3_firewall_failure_behavior (ok : String → Bool) (s : TDState)
    (fw : GcpResource) (h1 : s.ensure_firewall = true) (h2 : s.firewall_rule = some fw)
    (h3 : s.firewall_rule_ipv6 = none) (h4 : ok fw.name = false) :
    (delete_firewall_rules ok s false).2 =
      [RemoteCall.computeDeleteFirewallRule fw.name] ∧
    (delete_firewall_rules ok s false).1.firewall_rule = some fw ∧
    (delete_firewall_rules ok s false).1.ensure_firewall = false ∧
    (delete_firewall_rules ok (delete_firewall_rules ok s false).1 false).2 = [] ∧
    (delete_firewall_rule ok (delete_firewall_rules ok s false).1 false).2 =
      [RemoteCall.computeDeleteFirewallRule fw.name] := by
  refine ⟨?_, ?_, ?_, ?_, ?_⟩ <;>
    simp [delete_firewall_rules, delete_firewall_rule, delete_firewall_rule_ipv6,
      delete_firewall_rule_attempt, h1, h2, h3, h4]

/-- C3 witness: the failed-deletion behaviour at a concrete orchestrator
whose only resource is the IPv4 firewall rule. -/
theorem C3_firewall_failure_witness :
    (delete_firewall_rules (fun _ => false) c3State false).2 =
      [RemoteCall.computeDeleteFirewallRule "p-allow-health-checks-s"] ∧
    (delete_firewall_rules (fun _ => false) c3State false).1.firewall_rule =
      some ⟨"p-allow-health-checks-s", "fw-url"⟩ ∧
    (delete_firewall_rules (fun _ => false) c3State false).1.ensure_firewall = false ∧
    (delete_firewall_rules (fun _ => false)
        (delete_firewall_rules (fun _ => false) c3State false).1 false).2 = [] ∧
    (delete_firewall_rule (fun _ => false)
        (delete_firewall_rules (fun _ => false) c3State false).1 false).2 =
      [RemoteCall.computeDeleteFirewallRule "p-allow-health-checks-s"] :=
  C3_firewall_failure_behavior (fun _ => false) c3State
    ⟨"p-allow-health-checks-s", "fw-url"⟩ rfl rfl rfl rfl

/-- C3 counterexample: after a cleanup in which the remote firewall deletion
failed, the slot still holds the rule, yet the claimed retry does not
happen — the subsequent `cleanup()` issues no remote deletion at all
(the ensure-firewall flag was reset). -/
theorem C3_counterexample :
    (cleanup (fun _ => false) c3State false).2 =
      [RemoteCall.computeDeleteFirewallRule "p-allow-health-checks-s"] ∧
    (cleanup (fun _ => false) c3State false).1.firewall_rule =
      some ⟨"p-allow-health-checks-s", "fw-url"⟩ ∧
    (cleanup (fun _ => false) ((cleanup (fun _ => false) c3State false).1) false).2 = [] :=
  ⟨rfl, rfl, rfl⟩

/-- C4 (amended): `delete(force=true)` recomputes, for every resource kind,
the same name a prior `create()` would have used and attempts the remote
deletion regardless of the local slot state; `cleanup(force=true)` on a
never-created orchestrator attempts the remote deletion for every tracked
resource kind EXCEPT the firewall rules, which are skipped because the
ensure-firewall flag was never set. -/
theorem C4_force_delete_names (ok : String → Bool) (pfx sfx : String) (s : TDState)
    (reply : GcpResource) :
    ((cleanup ok (initial_state pfx sfx false) true).2 =
      [RemoteCall.computeDeleteForwardingRule
         (make_resource_name (initial_state pfx sfx false) FORWARDING_RULE_NAME),
       RemoteCall.computeDeleteForwardingRule
         (make_resource_name (initial_state pfx sfx false) ALTERNATIVE_FORWARDING_RULE_NAME),
       RemoteCall.computeDeleteTargetHttpProxy
         (make_resource_name (initial_state pfx sfx false) TARGET_PROXY_NAME),
       RemoteCall.computeDeleteTargetGrpcProxy
         (make_resource_name (initial_state pfx sfx false) TARGET_PROXY_NAME),
       RemoteCall.computeDeleteTargetGrpcProxy
         (make_resource_name (initial_state pfx sfx false) ALTERNATIVE_TARGET_PROXY_NAME),
       RemoteCall.computeDeleteUrlMap
         (make_resource_name (initial_state pfx sfx false) URL_MAP_NAME),
       RemoteCall.computeDeleteUrlMap
         (make_resource_name (initial_state pfx sfx false) ALTERNATIVE_URL_MAP_NAME),
       RemoteCall.computeDeleteBackendService
         (make_resource_name (initial_state pfx sfx false) BACKEND_SERVICE_NAME),
       RemoteCall.computeDeleteBackendService
         (make_resource_name (initial_state pfx sfx false) ALTERNATIVE_BACKEND_SERVICE_NAME),
       RemoteCall.computeDeleteBackendService
         (make_resource_name (initial_state pfx sfx false) AFFINITY_BACKEND_SERVICE_NAME),
       RemoteCall.computeDeleteHealthCheck
         (make_resource_name (initial_state pfx sfx false) HEALTH_CHECK_NAME)]) ∧
    ((cleanup ok (initial_state pfx sfx false) true).2.all
        (fun c => !c.isFirewallDeleteCall) = true) ∧
    ((delete_health_check s true).2 =
      [RemoteCall.computeDeleteHealthCheck (make_resource_name s HEALTH_CHECK_NAME)]) ∧
    ((delete_backend_service s true).2 =
      [RemoteCall.computeDeleteBackendService (make_resource_name s BACKEND_SERVICE_NAME)]) ∧
    ((create_health_check (initial_state pfx sfx false) reply).2 =
      [RemoteCall.computeCreateHealthCheck
        (make_resource_name (initial_state pfx sfx false) HEALTH_CHECK_NAME)]) :=
  ⟨rfl, rfl, rfl, rfl, rfl⟩

/-- C4 counterexample: on a never-created orchestrator, `cleanup(force=true)`
issues the recomputed-name deletion for every tracked kind EXCEPT the
firewall rules — no firewall deletion is attempted, refuting the claim that
the firewall rules are included. -/
theorem C4_counterexample :
    (cleanup (fun _ => true) (initial_state "p" "s" false) true).2 =
      [RemoteCall.computeDeleteForwardingRule "p-forwarding-rule-s",
       RemoteCall.computeDeleteForwardingRule "p-forwarding-rule-alt-s",
       RemoteCall.computeDeleteTargetHttpProxy "p-target-proxy-s",
       RemoteCall.computeDeleteTargetGrpcProxy "p-target-proxy-s",
       RemoteCall.computeDeleteTargetGrpcProxy "p-target-proxy-alt-s",
       RemoteCall.computeDeleteUrlMap "p-url-map-s",
       RemoteCall.computeDeleteUrlMap "p-url-map-alt-s",
       RemoteCall.computeDeleteBackendService "p-backend-service-s",
       RemoteCall.computeDeleteBackendService "p-backend-service-alt-s",
       RemoteCall.computeDeleteBackendService "p-backend-service-affinity-s",
       RemoteCall.computeDeleteHealthCheck "p-health-check-s"] ∧
    ((cleanup (fun _ => true) (initial_state "p" "s" false) true).2.all
        (fun c => !c.isFirewallDeleteCall)) = true :=
  ⟨rfl, rfl⟩

-- Every remote call the base cleanup issues goes to the compute gateway.

theorem delete_health_check_compute (s : TDState) (f : Bool) :
    ((delete_health_check s f).2).all RemoteCall.isComputeCall = true := by
  unfold delete_health_check
  split
  · rfl
  · split <;> rfl

theorem delete_backend_service_compute (s : TDState) (f : Bool) :
    ((delete_backend_service s f).2).all RemoteCall.isComputeCall = true := by
  unfold delete_backend_service
  split
  · rfl
  · split <;> rfl

theorem delete_alternative_backend_service_compute (s : TDState) (f : Bool) :
    ((delete_alternative_backend_service s f).2).all RemoteCall.isComputeCall = true := by
  unfold delete_alternative_backend_service
  split
  · rfl
  · split <;> rfl

theorem delete_affinity_backend_service_compute (s : TDState) (f : Bool) :
    ((delete_affinity_backend_service s f).2).all RemoteCall.isComputeCall = true := by
  unfold delete_affinity_backend_service
  split
  · rfl
  · split <;> rfl

theorem delete_url_map_compute (s : TDState) (f : Bool) :
    ((delete_url_map s f).2).all RemoteCall.isComputeCall = true := by
  unfold delete_url_map
  split
  · rfl
  · split <;> rfl

theorem delete_alternative_url_map_compute (s : TDState) (f : Bool) :
    ((delete_alternative_url_map s f).2).all RemoteCall.isComputeCall = true := by
  unfold delete_alternative_url_map
  split
  · rfl
  · split <;> rfl

theorem delete_target_grpc_proxy_compute (s : TDState) (f : Bool) :
    ((delete_target_grpc_proxy s f).2).all RemoteCall.isComputeCall = true := by
  unfold delete_target_grpc_proxy
  split
  · rfl
  · split <;> rfl

theorem delete_target_http_proxy_compute (s : TDState) (f : Bool) :
    ((delete_target_http_proxy s f).2).all RemoteCall.isComputeCall = true := by
  unfold delete_target_http_proxy
  split
  · rfl
  · split <;> first | rfl | (split <;> rfl)

theorem delete_target_proxy_ipv6_compute (s : TDState) (f : Bool) :
    ((delete_target_proxy_ipv6 s f).2).all RemoteCall.isComputeCall = true := by
  unfold delete_target_proxy_ipv6
  split
  · rfl
  · split <;> rfl

theorem delete_alternative_target_grpc_proxy_compute (s : TDState) (f : Bool) :
    ((delete_alternative_target_grpc_proxy s f).2).all RemoteCall.isComputeCall = true := by
  unfold delete_alternative_target_grpc_proxy
  split
  · rfl
  · split <;> rfl

theorem delete_forwarding_rule_compute (s : TDState) (f : Bool) :
    ((delete_forwarding_rule s f).2).all RemoteCall.isComputeCall = true := by
  unfold delete_forwarding_rule
  split
  · rfl
  · split <;> rfl

theorem delete_forwarding_rule_ipv6_compute (s : TDState) (f : Bool) :
    ((delete_forwarding_rule_ipv6 s f).2).all RemoteCall.isComputeCall = true := by
  unfold delete_forwarding_rule_ipv6
  split
  · rfl
  · split <;> rfl

theorem delete_alternative_forwarding_rule_compute (s : TDState) (f : Bool) :
    ((delete_alternative_forwarding_rule s f).2).all RemoteCall.isComputeCall = true := by
  unfold delete_alternative_forwarding_rule
  split
  · rfl
  · split <;> rfl

theorem delete_firewall_rule_compute (ok : String → Bool) (s : TDState) (f : Bool) :
    ((delete_firewall_rule ok s f).2).all RemoteCall.isComputeCall = true := by
  unfold delete_firewall_rule delete_firewall_rule_attempt
  split <;> first | rfl | (split <;> rfl)

theorem delete_firewall_rule_ipv6_compute (ok : String → Bool) (s : TDState) (f : Bool) :
    ((delete_firewall_rule_ipv6 ok s f).2).all RemoteCall.isComputeCall = true := by
  unfold delete_firewall_rule_ipv6 delete_firewall_rule_attempt
  split <;> first | rfl | (split <;> rfl)

theorem delete_firewall_rules_compute (ok : String → Bool) (s : TDState) (f : Bool) :
    ((delete_firewall_rules ok s f).2).all RemoteCall.isComputeCall = true := by
  unfold delete_firewall_rules
  split
  · simp [List.all_append, delete_firewall_rule_compute, delete_firewall_rule_ipv6_compute]
  · rfl

theorem cleanup_dualstack_step_compute (s : TDState) (f : Bool) :
    ((cleanup_dualstack_step s f).2).all RemoteCall.isComputeCall = true := by
  unfold cleanup_dualstack_step
  split
  · simp [List.all_append, delete_forwarding_rule_ipv6_compute,
      delete_target_proxy_ipv6_compute]
  · rfl

/-- The base `cleanup` talks exclusively to the compute gateway. -/
theorem cleanup_compute (ok : String → Bool) (s : TDState) (f : Bool) :
    ((cleanup ok s f).2).all RemoteCall.isComputeCall = true := by
  unfold cleanup
  simp [List.all_append, delete_firewall_rules_compute, delete_forwarding_rule_compute,
    delete_alternative_forwarding_rule_compute, delete_target_http_proxy_compute,
    delete_target_grpc_proxy_compute, cleanup_dualstack_step_compute,
    delete_alternative_target_grpc_proxy_compute, delete_url_map_compute,
    delete_alternative_url_map_compute, delete_backend_service_compute,
    delete_alternative_backend_service_compute, delete_affinity_backend_service_compute,
    delete_health_check_compute]

-- The extension deletions are netsvc route/mesh calls, respectively
-- netsvc/netsec policy calls, and they leave the base state untouched.

theorem appnet_delete_http_route_calls (s : AppNetState) (f : Bool) :
    ((appnet_delete_http_route s f).2).all RemoteCall.isMeshRouteDeleteCall = true := by
  unfold appnet_delete_http_route
  split
  · rfl
  · split <;> rfl

theorem appnet_delete_grpc_route_calls (s : AppNetState) (f : Bool) :
    ((appnet_delete_grpc_route s f).2).all RemoteCall.isMeshRouteDeleteCall = true := by
  unfold appnet_delete_grpc_route
  split
  · rfl
  · split <;> rfl

theorem appnet_delete_mesh_calls (s : AppNetState) (f : Bool) :
    ((appnet_delete_mesh s f).2).all RemoteCall.isMeshRouteDeleteCall = true := by
  unfold appnet_delete_mesh
  split
  · rfl
  · split <;> rfl

theorem appnet_delete_http_route_state (s : AppNetState) (f : Bool) :
    ((appnet_delete_http_route s f).1).toTDState = s.toTDState := by
  unfold appnet_delete_http_route
  split
  · rfl
  · split <;> rfl

theorem appnet_delete_grpc_route_state (s : AppNetState) (f : Bool) :
    ((appnet_delete_grpc_route s f).1).toTDState = s.toTDState := by
  unfold appnet_delete_grpc_route
  split
  · rfl
  · split <;> rfl

theorem appnet_delete_mesh_state (s : AppNetState) (f : Bool) :
    ((appnet_delete_mesh s f).1).toTDState = s.toTDState := by
  unfold appnet_delete_mesh
  split
  · rfl
  · split <;> rfl

theorem secure_delete_endpoint_policy_calls (s : SecureState) (f : Bool) :
    ((secure_delete_endpoint_policy s f).2).all RemoteCall.isPolicyDeleteCall = true := by
  unfold secure_delete_endpoint_policy
  split
  · rfl
  · split <;> rfl

theorem secure_delete_server_tls_policy_calls (s : SecureState) (f : Bool) :
    ((secure_delete_server_tls_policy s f).2).all RemoteCall.isPolicyDeleteCall = true := by
  unfold secure_delete_server_tls_policy
  split
  · rfl
  · split <;> rfl

theorem secure_delete_client_tls_policy_calls (s : SecureState) (f : Bool) :
    ((secure_delete_client_tls_policy s f).2).all RemoteCall.isPolicyDeleteCall = true := by
  unfold secure_delete_client_tls_policy
  split
  · rfl
  · split <;> rfl

theorem secure_delete_authz_policy_calls (s : SecureState) (f : Bool) :
    ((secure_delete_authz_policy s f).2).all RemoteCall.isPolicyDeleteCall = true := by
  unfold secure_delete_authz_policy
  split
  · rfl
  · split <;> rfl

/-- C1 (amended): both extension teardowns compose with the base teardown,
but in opposite orders.  `TrafficDirectorAppNetManager.cleanup` first issues
its route and mesh deletions (netsvc calls) and then the full base cleanup;
`TrafficDirectorSecureManager.cleanup` first runs the full base cleanup
(compute-gateway calls only) and only afterwards deletes its endpoint, TLS
and authorization policies. -/
theorem C1_cleanup_order (ok : String → Bool) (sa : AppNetState) (ss : SecureState)
    (force : Bool) :
    ((appnet_cleanup ok sa force).2 =
      appnet_ext_calls sa force ++ (cleanup ok sa.toTDState force).2) ∧
    ((appnet_ext_calls sa force).all RemoteCall.isMeshRouteDeleteCall = true) ∧
    ((secure_cleanup ok ss force).2 =
      (cleanup ok ss.toTDState force).2 ++ secure_policy_calls ok ss force) ∧
    ((secure_policy_calls ok ss force).all RemoteCall.isPolicyDeleteCall = true) ∧
    ((cleanup ok ss.toTDState force).2.all RemoteCall.isComputeCall = true) := by
  refine ⟨?_, ?_, ?_, ?_, cleanup_compute ok ss.toTDState force⟩
  · simp only [appnet_cleanup, appnet_ext_calls]
    rw [appnet_delete_mesh_state, appnet_delete_grpc_route_state,
      appnet_delete_http_route_state]
  · simp only [appnet_ext_calls]
    simp [List.all_append, appnet_delete_http_route_calls, appnet_delete_grpc_route_calls,
      appnet_delete_mesh_calls]
  · simp only [secure_cleanup, secure_policy_calls]
    simp [List.append_assoc]
  · simp only [secure_policy_calls]
    simp [List.all_append, secure_delete_endpoint_policy_calls,
      secure_delete_server_tls_policy_calls, secure_delete_client_tls_policy_calls,
      secure_delete_authz_policy_calls]

/-- C1 counterexample: on a secure manager holding a health check (base
resource) and an endpoint policy (extension resource), `cleanup()` deletes
the base resource FIRST and the extension policy afterwards — the first
call issued is not an extension-policy deletion — refuting the claim that
the security extension deletes its policies before running base cleanup. -/
theorem C1_counterexample :
    ((secure_cleanup (fun _ => true) c1SecureState false).2 =
      [RemoteCall.computeDeleteHealthCheck "p-health-check-s",
       RemoteCall.netsvcDeleteEndpointPolicy "p-endpoint-policy-s"]) ∧
    (((secure_cleanup (fun _ => true) c1SecureState false).2.head?).map
        RemoteCall.isPolicyDeleteCall = some false) :=
  ⟨rfl, rfl⟩

-- Frame lemmas: the cleanup steps preceding the target-proxy deletions do
-- not touch the proxy slot, the HTTP-kind flag, or the naming tuple.

theorem proxyView_ensure (t : TDState) :
    proxyView { t with ensure_firewall := false } = proxyView t := rfl

theorem make_resource_name_frame (t s : TDState) (h : proxyView t = proxyView s)
    (n : String) : make_resource_name t n = make_resource_name s n := by
  have hp : t.resourcePfx = s.resourcePfx := congrArg (fun p => p.2.2.1) h
  have hs : t.resourceSfx = s.resourceSfx := congrArg (fun p => p.2.2.2) h
  unfold make_resource_name
  rw [hp, hs]

theorem make_resource_name_proxy_cleared (t : TDState) (n : String) :
    make_resource_name { t with target_proxy := none, target_proxy_is_http := false } n =
      make_resource_name t n := rfl

theorem delete_forwarding_rule_frame (s : TDState) (f : Bool) :
    proxyView (delete_forwarding_rule s f).1 = proxyView s := by
  unfold delete_forwarding_rule
  split
  · rfl
  · split <;> rfl

theorem delete_alternative_forwarding_rule_frame (s : TDState) (f : Bool) :
    proxyView (delete_alternative_forwarding_rule s f).1 = proxyView s := by
  unfold delete_alternative_forwarding_rule
  split
  · rfl
  · split <;> rfl

theorem delete_firewall_rule_frame (ok : String → Bool) (s : TDState) (f : Bool) :
    proxyView (delete_firewall_rule ok s f).1 = proxyView s := by
  unfold delete_firewall_rule delete_firewall_rule_attempt
  split
  · rename_i fw hfw
    by_cases h : ok fw.name <;> simp [h, proxyView]
  · split
    · by_cases h : ok (make_resource_name s FIREWALL_RULE_NAME) <;> simp [h, proxyView]
    · rfl

theorem delete_firewall_rule_ipv6_frame (ok : String → Bool) (s : TDState) (f : Bool) :
    proxyView (delete_firewall_rule_ipv6 ok s f).1 = proxyView s := by
  unfold delete_firewall_rule_ipv6 delete_firewall_rule_attempt
  split
  · rename_i fw hfw
    by_cases h : ok fw.name <;> simp [h, proxyView]
  · split
    · by_cases h : ok (make_resource_name s FIREWALL_RULE_NAME_IPV6) <;> simp [h, proxyView]
    · rfl

theorem delete_firewall_rules_frame (ok : String → Bool) (s : TDState) (f : Bool) :
    proxyView (delete_firewall_rules ok s f).1 = proxyView s := by
  unfold delete_firewall_rules
  split
  · show proxyView
        { (delete_firewall_rule_ipv6 ok (delete_firewall_rule ok s f).1 f).1 with
            ensure_firewall := false } = proxyView s
    rw [proxyView_ensure, delete_firewall_rule_ipv6_frame, delete_firewall_rule_frame]
  · rfl

theorem cleanup_pre_proxy_frame (ok : String → Bool) (s : TDState) (f : Bool) :
    proxyView (cleanup_pre_proxy ok s f).1 = proxyView s := by
  show proxyView (delete_alternative_forwarding_rule
      (delete_forwarding_rule (delete_firewall_rules ok s f).1 f).1 f).1 = proxyView s
  rw [delete_alternative_forwarding_rule_frame, delete_forwarding_rule_frame,
    delete_firewall_rules_frame]

/-- C10: the base `cleanup` trace splits around the two consecutive
target-proxy deletion steps; without `force` those steps issue at most one
remote deletion for the active target-proxy slot, selecting the HTTP or the
GRPC delete gateway according to the recorded HTTP-kind flag; with
`force=true` they invoke BOTH the HTTP-proxy and the GRPC-proxy delete
gateways with the same recomputed target-proxy name. -/
theorem C10_target_proxy_cleanup (ok : String → Bool) (s : TDState) (force : Bool) :
    ((cleanup ok s force).2 =
      (cleanup_pre_proxy ok s force).2 ++ cleanup_proxy_calls ok s force ++
        (cleanup_post_proxy
          (cleanup_proxy_step (cleanup_pre_proxy ok s force).1 force).1 force).2) ∧
    (cleanup_proxy_calls ok s false =
      (match s.target_proxy with
       | none => []
       | some r =>
           [if s.target_proxy_is_http then RemoteCall.computeDeleteTargetHttpProxy r.name
            else RemoteCall.computeDeleteTargetGrpcProxy r.name])) ∧
    ((cleanup_proxy_calls ok s false).length ≤ 1) ∧
    (cleanup_proxy_calls ok s true =
      [RemoteCall.computeDeleteTargetHttpProxy (make_resource_name s TARGET_PROXY_NAME),
       RemoteCall.computeDeleteTargetGrpcProxy (make_resource_name s TARGET_PROXY_NAME)]) := by
  have hf := cleanup_pre_proxy_frame ok s false
  have hp : (cleanup_pre_proxy ok s false).1.target_proxy = s.target_proxy :=
    congrArg (fun p => p.1) hf
  have hh : (cleanup_pre_proxy ok s false).1.target_proxy_is_http =
      s.target_proxy_is_http := congrArg (fun p => p.2.1) hf
  have hB : cleanup_proxy_calls ok s false =
      (match s.target_proxy with
       | none => []
       | some r =>
           [if s.target_proxy_is_http then RemoteCall.computeDeleteTargetHttpProxy r.name
            else RemoteCall.computeDeleteTargetGrpcProxy r.name]) := by
    unfold cleanup_proxy_calls cleanup_proxy_step
    cases hr : s.target_proxy with
    | none =>
        have h1 : (cleanup_pre_proxy ok s false).1.target_proxy = none := by rw [hp, hr]
        simp [delete_target_http_proxy, delete_target_grpc_proxy, h1]
    | some r =>
        have h1 : (cleanup_pre_proxy ok s false).1.target_proxy = some r := by
          rw [hp, hr]
        cases hb : s.target_proxy_is_http with
        | true =>
            have h2 : (cleanup_pre_proxy ok s false).1.target_proxy_is_http = true := by
              rw [hh, hb]
            simp [delete_target_http_proxy, delete_target_grpc_proxy, h1, h2]
        | false =>
            have h2 : (cleanup_pre_proxy ok s false).1.target_proxy_is_http = false := by
              rw [hh, hb]
            simp [delete_target_http_proxy, delete_target_grpc_proxy, h1, h2]
  refine ⟨?_, hB, ?_, ?_⟩
  · simp only [cleanup, cleanup_pre_proxy, cleanup_proxy_step, cleanup_post_proxy,
      cleanup_proxy_calls]
    simp [List.append_assoc]
  · rw [hB]
    cases s.target_proxy <;> simp
  · have hft := cleanup_pre_proxy_frame ok s true
    have hn : make_resource_name (cleanup_pre_proxy ok s true).1 TARGET_PROXY_NAME =
        make_resource_name s TARGET_PROXY_NAME :=
      make_resource_name_frame _ _ hft _
    unfold cleanup_proxy_calls cleanup_proxy_step
    simp [delete_target_http_proxy, delete_target_grpc_proxy,
      make_resource_name_proxy_cleared, hn]
